import Mathlib

/-!
Shallow embedding of the fitplan workout backend
(`src/workout_backend/src/api/routes/{workouts,logs,progress}.py` and the
table models in `src/workout_backend/src/models/`).

Modelling conventions:
* UUID primary keys and autoincrement integer keys are modelled as `Nat`;
  a freshly generated id is modelled as the current row count of its table.
* SQL `Numeric` (decimal) columns are modelled as `ℚ`; nullable columns as
  `Option _`.  `datetime` timestamps are modelled as `Int` seconds, so
  `timedelta(days=k)` is `k * 86400`.
* Python `//` on `int` is floor division, modelled by `Int.fdiv`.
* Each HTTP handler is a pure function of an explicit store (`Db`) returning
  `Except ApiError (response × Db)`; in the source every `raise HTTPException`
  occurs before the first `db.add`, and the single `db.commit()` at the end of
  a handler either persists everything or (on an exception) nothing, so the
  wrapper `commitOrRollback` that keeps the input store on error is a faithful
  rendering of the transaction semantics.
* `random.sample(pool, k)` (callers always pass `k = min _ (len pool)`) is an
  unseeded random draw of `k` distinct elements; handlers take the sampler as
  an explicit parameter `sample : List Exercise → Nat → List Exercise`, and
  properties are proved for every sampler satisfying `SamplerOk`.
-/

namespace FitPlan

/-- Row of the `exercises` table (`models/exercise.py`).  Columns not read by
any handler modelled here (secondary_muscle, calories_per_minute, description)
are omitted.  `primary_muscle` is nullable, `equipment_id` is a nullable
foreign key. -/
structure Exercise where
  id : Nat
  name : String
  primaryMuscle : Option String
  equipmentId : Option Nat
  deriving DecidableEq

/-- Row of the `equipment` table (`models/equipment.py`); only `id` and the
unique `name` are read by the handlers. -/
structure Equipment where
  id : Nat
  name : String
  deriving DecidableEq

/-- Row of the `users` table (`models/user.py`); the handlers only ever test
existence by id, so the other columns are omitted. -/
structure User where
  id : Nat
  deriving DecidableEq

/-- Row of the `workouts` table (`models/workout.py`): id, owning user and the
free-form goal string; `created_at` is omitted (only read by the history
endpoint, which is not modelled). -/
structure Workout where
  id : Nat
  userId : Nat
  goal : String
  deriving DecidableEq

/-- Row of the `workout_exercises` table (`models/workout_exercise.py`).
The prescription columns are Python ints, hence `Int`. -/
structure WorkoutExercise where
  workoutId : Nat
  exerciseId : Nat
  targetSets : Int
  targetReps : Int
  restSeconds : Int
  deriving DecidableEq

/-- Row of the `workout_logs` table (`models/workout_log.py`):
`performed_at` carries the server-assigned timestamp (seconds). -/
structure WorkoutLog where
  id : Nat
  workoutId : Option Nat
  performedAt : Int
  durationMinutes : Int
  deriving DecidableEq

/-- Row of the `exercise_sets` table (`models/exercise_set.py`); the
autoincrement `id` column is omitted (no handler modelled here reads it).
`workout_log_id`, `exercise_id`, `set_number`, `reps`, `weight_kg` and `rpe`
are all nullable in the schema; `set_number` is always written by the one
code path that creates rows, but is kept `Nat` here since no claim involves a
null set number. -/
structure ExerciseSetRow where
  workoutLogId : Option Nat
  exerciseId : Option Nat
  setNumber : Nat
  reps : Option Int
  weightKg : Option ℚ
  rpe : Option ℚ
  deriving DecidableEq

/-- The relational store: one list per table. -/
structure Db where
  users : List User
  equipment : List Equipment
  exercises : List Exercise
  workouts : List Workout
  workoutExercises : List WorkoutExercise
  workoutLogs : List WorkoutLog
  exerciseSets : List ExerciseSetRow
  deriving DecidableEq

/-- The two `HTTPException` families raised by the handlers (404 / 400), plus
the unhandled Python `TypeError` that `generate` can raise (it is not an
`HTTPException` at all and surfaces as a 500). -/
inductive ApiError where
  | notFound (msg : String)
  | invalidArgument (msg : String)
  | typeError (msg : String)
  deriving DecidableEq

/-- The source commits at the end of a handler; an exception raised earlier
rolls the transaction back, so a failing call leaves the store untouched. -/
def commitOrRollback {α : Type} (db : Db) (r : Except ApiError (α × Db)) :
    Except ApiError α × Db :=
  match r with
  | .ok (a, db') => (.ok a, db')
  | .error e => (.error e, db)

def userExists (db : Db) (userId : Nat) : Bool :=
  db.users.any (fun u => u.id == userId)

def exerciseExists (db : Db) (exerciseId : Nat) : Bool :=
  db.exercises.any (fun e => e.id == exerciseId)

def workoutExists (db : Db) (workoutId : Nat) : Bool :=
  db.workouts.any (fun w => w.id == workoutId)

/-! ## Workout generation (`routes/workouts.py`, `generate_workout`) -/

/-- `valid_goals` list from `generate_workout` (workouts.py line 76). -/
def validGoals : List String :=
  ["strength", "hypertrophy", "endurance", "weight_loss", "general"]

/-- Per-goal prescription triple (workouts.py lines 121-135). -/
structure Prescription where
  sets : Int
  reps : Int
  rest : Int
  deriving DecidableEq

/-- The if/elif chain mapping the (already lowercased) goal to its
prescription; the `else` branch is the `general` one. -/
def prescription (goal : String) : Prescription :=
  if goal = "strength" then ⟨5, 5, 180⟩
  else if goal = "hypertrophy" then ⟨4, 10, 90⟩
  else if goal = "endurance" then ⟨3, 15, 60⟩
  else if goal = "weight_loss" then ⟨3, 12, 45⟩
  else ⟨3, 10, 90⟩

/-- Request body of POST /workouts/generate (`WorkoutGenerateRequest`).
`equipment` and `duration_minutes` are Optional (the latter defaults to 45,
but an explicit JSON `null` is accepted and becomes `None`). -/
structure WorkoutGenerateRequest where
  userId : Nat
  goal : String
  equipment : Option (List String)
  durationMinutes : Option Int
  deriving DecidableEq

/-- One element of the `exercises` list of the response (the dicts built at
workouts.py lines 182-189 and 275-282). -/
structure ExerciseDetail where
  exerciseId : Nat
  exerciseName : String
  primaryMuscle : Option String
  targetSets : Int
  targetReps : Int
  restSeconds : Int
  deriving DecidableEq

/-- Response body of both workout-creation endpoints
(`WorkoutGenerateResponse`). -/
structure WorkoutGenerateResponse where
  workoutId : Nat
  goal : String
  exercises : List ExerciseDetail
  estimatedDuration : Int
  deriving DecidableEq

/-- Python `str.lower()` as used on goal strings: character-wise ASCII
lowercasing (the five valid goal labels and their case variants are ASCII). -/
def pyLower (s : String) : String :=
  String.mk (s.data.map Char.toLower)

/-- `exercise.primary_muscle or "general"` (workouts.py line 112): Python
`or` replaces both `None` and the empty string (falsy) by `"general"`. -/
def muscleKey (ex : Exercise) : String :=
  match ex.primaryMuscle with
  | none => "general"
  | some s => if s = "" then "general" else s

/-- Equipment filtering (workouts.py lines 87-98): applied only when
`request.equipment` is truthy (ie present and non-empty); keeps exercises
whose equipment id is among the ids of the named equipment rows, plus all
bodyweight exercises (null equipment id). -/
def filterByEquipment (db : Db) (equipment : Option (List String)) :
    List Exercise :=
  match equipment with
  | none => db.exercises
  | some names =>
    if names.isEmpty then db.exercises
    else
      let equipmentIds :=
        (db.equipment.filter (fun e => names.contains e.name)).map
          (fun e => e.id)
      db.exercises.filter (fun ex =>
        match ex.equipmentId with
        | none => true
        | some i => equipmentIds.contains i)

/-- Number of keys of the `muscle_groups` dict (workouts.py lines 110-115):
the number of distinct muscle keys of the filtered catalog. -/
def numMuscleGroups (exs : List Exercise) : Nat :=
  ((exs.map muscleKey).dedup).length

/-- The bucket `muscle_groups[m]`: the filtered-catalog exercises with muscle
key `m`, in catalog order (dict values are built by appending in iteration
order). -/
def muscleBucket (exs : List Exercise) (m : String) : List Exercise :=
  exs.filter (fun e => muscleKey e == m)

/-- `major_groups` (workouts.py line 138). -/
def majorGroups : List String :=
  ["chest", "back", "legs", "shoulders", "arms"]

/-- One iteration of the per-muscle selection loop (workouts.py lines
141-148): if the group is present, draw
`min(exercises_per_group, len(bucket))` exercises from its bucket. -/
def groupContrib (sample : List Exercise → Nat → List Exercise)
    (exs : List Exercise) (perGroup : Nat) (m : String) : List Exercise :=
  let bucket := muscleBucket exs m
  if bucket.isEmpty then [] else sample bucket (min perGroup bucket.length)

/-- The whole per-muscle selection loop: `selected_exercises` after line 148
(the loop extends the list once per major group, in the fixed order). -/
def selectMajor (sample : List Exercise → Nat → List Exercise)
    (exs : List Exercise) (perGroup : Nat) : List Exercise :=
  (majorGroups.map (groupContrib sample exs perGroup)).flatten

/-- The top-up step (workouts.py lines 150-160): when the per-muscle
selection falls short of `target_exercise_count`, draw additional exercises
from the not-yet-selected remainder (`remaining_exercises`, written out here
at each use), bounded by availability. -/
def topUpSelection (sample : List Exercise → Nat → List Exercise)
    (exs majorSel : List Exercise) (targetCount : Int) : List Exercise :=
  if (majorSel.length : Int) < targetCount then
    if (exs.filter (fun e => ¬ majorSel.contains e)).isEmpty then majorSel
    else
      majorSel ++
        sample (exs.filter (fun e => ¬ majorSel.contains e))
          (min (targetCount - (majorSel.length : Int)).toNat
            (exs.filter (fun e => ¬ majorSel.contains e)).length)
  else majorSel

/-- Server-side id generation for a new `workouts` row, modelled as the
current row count. -/
def freshWorkoutId (db : Db) : Nat :=
  db.workouts.length

/-- POST /workouts/generate (`generate_workout`, workouts.py lines 42-202),
statement by statement.  Note that `target_exercise_count` (line 151) is
computed from `request.duration_minutes // 10` after the per-muscle loop;
when `duration_minutes` is `None` that line raises a `TypeError`, modelled by
the `ApiError.typeError` branch. -/
def generate_workout (sample : List Exercise → Nat → List Exercise)
    (db : Db) (req : WorkoutGenerateRequest) :
    Except ApiError (WorkoutGenerateResponse × Db) :=
  if ¬ userExists db req.userId then
    .error (.notFound ("User with ID " ++ toString req.userId ++ " not found"))
  else
    let goal := pyLower req.goal
    if ¬ validGoals.contains goal then
      .error (.invalidArgument
        "Invalid goal. Must be one of: strength, hypertrophy, endurance, weight_loss, general")
    else
      let exs := filterByEquipment db req.equipment
      if exs.isEmpty then
        .error (.invalidArgument "No exercises found matching the equipment criteria")
      else
        let p := prescription goal
        let perGroup : Nat := if numMuscleGroups exs > 5 then 1 else 2
        let majorSel := selectMajor sample exs perGroup
        match req.durationMinutes with
        | none =>
          .error (.typeError "unsupported operand type(s) for floor division: NoneType and int")
        | some d =>
          let targetCount : Int := max 5 (Int.fdiv d 10)
          let selected := topUpSelection sample exs majorSel targetCount
          let wid := freshWorkoutId db
          let rows := selected.map (fun ex =>
            ({ workoutId := wid, exerciseId := ex.id, targetSets := p.sets,
               targetReps := p.reps, restSeconds := p.rest } : WorkoutExercise))
          let details := selected.map (fun ex =>
            ({ exerciseId := ex.id, exerciseName := ex.name,
               primaryMuscle := ex.primaryMuscle, targetSets := p.sets,
               targetReps := p.reps, restSeconds := p.rest } : ExerciseDetail))
          let est : Int :=
            Int.fdiv ((selected.length : Int) * p.sets * (p.reps * 3 + p.rest)) 60
          .ok ({ workoutId := wid, goal := goal, exercises := details,
                 estimatedDuration := est },
               { db with
                  workouts := db.workouts ++ [⟨wid, req.userId, goal⟩],
                  workoutExercises := db.workoutExercises ++ rows })

/-- `generate_workout` with the surrounding transaction: the store is the
input store whenever the handler raises. -/
def runGenerate (sample : List Exercise → Nat → List Exercise)
    (db : Db) (req : WorkoutGenerateRequest) :
    Except ApiError WorkoutGenerateResponse × Db :=
  commitOrRollback db (generate_workout sample db req)

/-- Contract of `random.sample` restricted to duplicate-free pools: the draw
is duplicate-free, drawn from the pool, of size `min k (pool length)`
(callers always clamp `k` to the pool length themselves). -/
def SamplerOk (sample : List Exercise → Nat → List Exercise) : Prop :=
  ∀ xs k, xs.Nodup →
    (sample xs k).Nodup ∧ (∀ e ∈ sample xs k, e ∈ xs) ∧
      (sample xs k).length = min k xs.length

/-- Deterministic sampler used for concrete witnesses: take the first `k`. -/
def sampleTake (xs : List Exercise) (k : Nat) : List Exercise :=
  xs.take k

theorem sampleTake_ok : SamplerOk sampleTake := by
  intro xs k h
  refine ⟨h.sublist (List.take_sublist k xs), ?_, ?_⟩
  · intro e he
    exact (List.take_sublist k xs).mem he
  · simp [sampleTake]

/-! ## Custom workout creation (`routes/workouts.py`, `create_custom_workout`) -/

/-- One element of the `exercises` list of POST /workouts/custom.  The source
takes untyped dicts and reads `exercise_id` with `dict.get` and the three
prescription keys with `dict.get(key, default)`; an item of a well-typed
request carries an exercise id and the three optional prescription fields. -/
structure CustomExerciseSpec where
  exerciseId : Nat
  targetSets : Option Int
  targetReps : Option Int
  restSeconds : Option Int
  deriving DecidableEq

/-- Request body of POST /workouts/custom (`CustomWorkoutRequest`).  Note the
goal is a plain string field: unlike `generate`, this handler never checks it
against `valid_goals` nor lowercases it. -/
structure CustomWorkoutRequest where
  userId : Nat
  goal : String
  exercises : List CustomExerciseSpec
  deriving DecidableEq

/-- POST /workouts/custom (`create_custom_workout`, workouts.py lines
210-298).  The existence check compares the number of catalog rows whose id
is in the requested id list (each matching row returned once by the SQL `IN`
query) against the length of the requested id list, duplicates included. -/
def create_custom_workout (db : Db) (req : CustomWorkoutRequest) :
    Except ApiError (WorkoutGenerateResponse × Db) :=
  if ¬ userExists db req.userId then
    .error (.notFound ("User with ID " ++ toString req.userId ++ " not found"))
  else if req.exercises.isEmpty then
    .error (.invalidArgument "At least one exercise must be provided")
  else
    let exerciseIds := req.exercises.map (fun s => s.exerciseId)
    let resolved := db.exercises.filter (fun e => exerciseIds.contains e.id)
    if resolved.length ≠ exerciseIds.length then
      .error (.notFound "One or more exercises not found")
    else
      let wid := freshWorkoutId db
      let rows := req.exercises.map (fun spec =>
        ({ workoutId := wid, exerciseId := spec.exerciseId,
           targetSets := spec.targetSets.getD 3,
           targetReps := spec.targetReps.getD 10,
           restSeconds := spec.restSeconds.getD 90 } : WorkoutExercise))
      let details := req.exercises.filterMap (fun spec =>
        (resolved.find? (fun e => e.id == spec.exerciseId)).map (fun ex =>
          ({ exerciseId := ex.id, exerciseName := ex.name,
             primaryMuscle := ex.primaryMuscle,
             targetSets := spec.targetSets.getD 3,
             targetReps := spec.targetReps.getD 10,
             restSeconds := spec.restSeconds.getD 90 } : ExerciseDetail)))
      let est : Int :=
        Int.fdiv
          ((details.map (fun d =>
            d.targetSets * (d.targetReps * 3 + d.restSeconds))).sum) 60
      .ok ({ workoutId := wid, goal := req.goal, exercises := details,
             estimatedDuration := est },
           { db with
              workouts := db.workouts ++ [⟨wid, req.userId, req.goal⟩],
              workoutExercises := db.workoutExercises ++ rows })

/-- `create_custom_workout` with the surrounding transaction. -/
def runCustom (db : Db) (req : CustomWorkoutRequest) :
    Except ApiError WorkoutGenerateResponse × Db :=
  commitOrRollback db (create_custom_workout db req)

/-! ## Set logging (`routes/logs.py`, `log_exercise_sets`) -/

/-- Input item of POST /workouts/.../exercises/.../log (`ExerciseSetCreate`,
`schemas/exercise_set.py` lines 7-19): the schema admits `workout_log_id`,
`exercise_id` and `set_number` on each item even though the handler never
reads them; `weight_kg` has pydantic default `Decimal("0")` but an explicit
null is accepted. -/
structure ExerciseSetCreate where
  workoutLogId : Option Nat
  exerciseId : Option Nat
  setNumber : Option Int
  reps : Option Int
  weightKg : Option ℚ
  rpe : Option ℚ
  deriving DecidableEq

/-- The query at logs.py lines 158-160: logs of the workout, ordered by
`performed_at` descending, first row.  The store gives no tie-break for equal
timestamps; this model keeps the earliest-stored row among ties. -/
def mostRecentLog (db : Db) (workoutId : Nat) : Option WorkoutLog :=
  (db.workoutLogs.filter (fun l => l.workoutId == some workoutId)).foldl
    (fun acc log =>
      match acc with
      | none => some log
      | some best =>
        if best.performedAt < log.performedAt then some log else some best)
    none

/-- POST /workouts/(workout_id)/exercises/(exercise_id)/log
(`log_exercise_sets`, logs.py lines 99-188).  Validation order: workout
exists, a WorkoutExercise row links the two ids, the exercise exists, the
batch is non-empty, a log exists.  `enumerate(request.sets, start=1)` numbers
the batch 1..n and only `reps`, `weight_kg`, `rpe` are copied from the input
items. -/
def log_exercise_sets (db : Db) (workoutId : Nat) (exerciseId : Nat)
    (sets : List ExerciseSetCreate) :
    Except ApiError (List ExerciseSetRow × Db) :=
  if ¬ workoutExists db workoutId then
    .error (.notFound ("Workout with ID " ++ toString workoutId ++ " not found"))
  else if ¬ db.workoutExercises.any (fun we =>
      we.workoutId == workoutId && we.exerciseId == exerciseId) then
    .error (.notFound ("Exercise " ++ toString exerciseId ++
      " is not part of workout " ++ toString workoutId))
  else if ¬ exerciseExists db exerciseId then
    .error (.notFound ("Exercise with ID " ++ toString exerciseId ++ " not found"))
  else if sets.isEmpty then
    .error (.invalidArgument "At least one set must be provided")
  else
    match mostRecentLog db workoutId with
    | none =>
      .error (.invalidArgument
        "No active workout log found. Please log the workout session first using POST /workouts/\x7bworkout_id\x7d/log")
    | some log =>
      let rows := sets.enum.map (fun p =>
        ({ workoutLogId := some log.id, exerciseId := some exerciseId,
           setNumber := p.1 + 1, reps := p.2.reps, weightKg := p.2.weightKg,
           rpe := p.2.rpe } : ExerciseSetRow))
      .ok (rows, { db with exerciseSets := db.exerciseSets ++ rows })

/-! ## Progress aggregation (`routes/progress.py`) -/

/-- Truthiness of a nullable decimal weight in `[... for s in ex_sets if
s.weight_kg]`: null and zero are falsy. -/
def truthyWeight (w : Option ℚ) : Option ℚ :=
  match w with
  | none => none
  | some q => if q = 0 then none else some q

/-- Truthiness of a nullable integer exercise id in `if ex_set.exercise_id:`:
null and zero are falsy. -/
def truthyId (i : Option Nat) : Option Nat :=
  match i with
  | none => none
  | some n => if n = 0 then none else some n

/-- Per-exercise aggregation over one group of sets — the bodies of
progress.py lines 156-164 (`get_progress_summary`) and 286-290
(`get_exercise_progress`), which are identical: total sets counts every set,
total reps sums `reps or 0` over every set, and max/mean weight range over
the truthy (non-null, non-zero) weights only, defaulting to 0 when there are
none. -/
structure ExerciseAgg where
  totalSets : Nat
  totalReps : Int
  maxWeight : ℚ
  avgWeight : ℚ
  deriving DecidableEq

def exerciseAgg (group : List ExerciseSetRow) : ExerciseAgg :=
  let weights := group.filterMap (fun s => truthyWeight s.weightKg)
  { totalSets := group.length
    totalReps := (group.map (fun s => s.reps.getD 0)).sum
    maxWeight := match weights with
      | [] => 0
      | w :: ws => ws.foldl max w
    avgWeight := if weights.isEmpty then 0
      else weights.sum / (weights.length : ℚ) }

/-- The weights the spec says the max/mean range over, written from the
spec's words: the weights of those sets of the group whose weight is neither
null nor zero (to be compared with the `weights` list comprehension the code
builds inside `exerciseAgg`). -/
def specTruthyWeights (group : List ExerciseSetRow) : List ℚ :=
  (group.filter (fun s =>
    decide (s.weightKg ≠ none) && decide (s.weightKg ≠ some 0))).map
    (fun s => s.weightKg.getD 0)

/-- Keys of the `exercise_sets_map` dict (progress.py lines 143-149): truthy
exercise ids in order of first occurrence. -/
def groupKeys (sets : List ExerciseSetRow) : List Nat :=
  sets.foldl (fun acc s =>
    match truthyId s.exerciseId with
    | none => acc
    | some i => if acc.contains i then acc else acc ++ [i])
    []

/-- The `workout_frequency` dict of the summary. -/
structure WorkoutFrequency where
  last7Days : Nat
  last30Days : Nat
  last90Days : Nat
  deriving DecidableEq

/-- One entry of the summary's `exercise_progress` list. -/
structure ExerciseProgressEntry where
  exerciseId : Nat
  exerciseName : String
  totalSets : Nat
  totalReps : Int
  maxWeightKg : ℚ
  avgWeightKg : ℚ
  deriving DecidableEq

/-- Response body of GET /progress (`ProgressSummary`).
`estimated_calories_burned` is `round(total_duration * 6.5, 2)`; since the
product has at most one decimal digit and is exactly representable, the
2-decimal rounding is the identity and is not repeated here. -/
structure ProgressSummary where
  userId : Nat
  totalWorkouts : Nat
  totalExercises : Nat
  totalSets : Nat
  totalReps : Int
  totalDurationMinutes : Int
  estimatedCaloriesBurned : ℚ
  workoutFrequency : WorkoutFrequency
  exerciseProgress : List ExerciseProgressEntry
  deriving DecidableEq

/-- Stable insertion of one entry into a list sorted by descending
`total_sets`; `insertionSortByDesc` models Python's stable
`list.sort(key=..., reverse=True)` at progress.py line 168. -/
def insertDesc (e : ExerciseProgressEntry) :
    List ExerciseProgressEntry → List ExerciseProgressEntry
  | [] => [e]
  | x :: xs =>
    if x.totalSets < e.totalSets then e :: x :: xs
    else x :: insertDesc e xs

def insertionSortByDesc (l : List ExerciseProgressEntry) :
    List ExerciseProgressEntry :=
  l.foldr insertDesc []

/-- Does this log row belong to one of the given workouts?
(`WorkoutLog.workout_id.in_(workout_ids)`). -/
def logInWorkouts (workoutIds : List Nat) (l : WorkoutLog) : Bool :=
  match l.workoutId with
  | some w => workoutIds.contains w
  | none => false

/-- Does this set row belong to one of the given logs?
(`ExerciseSet.workout_log_id.in_(log_ids)`). -/
def setInLogs (logIds : List Nat) (s : ExerciseSetRow) : Bool :=
  match s.workoutLogId with
  | some i => logIds.contains i
  | none => false

/-- GET /progress (`get_progress_summary`, progress.py lines 43-180), with
the current time passed explicitly (the handler reads `datetime.utcnow()`
twice, at lines 79 and 130, within the same instant in this model).
`days` is validated by the framework to 1..365 before the handler runs. -/
def get_progress_summary (db : Db) (userId : Nat) (days : Nat) (now : Int) :
    Except ApiError ProgressSummary :=
  if ¬ userExists db userId then
    .error (.notFound ("User with ID " ++ toString userId ++ " not found"))
  else
    let startDate := now - (days : Int) * 86400
    let workoutIds :=
      (db.workouts.filter (fun w => w.userId == userId)).map (fun w => w.id)
    if workoutIds.isEmpty then
      .ok { userId := userId, totalWorkouts := 0, totalExercises := 0,
            totalSets := 0, totalReps := 0, totalDurationMinutes := 0,
            estimatedCaloriesBurned := 0,
            workoutFrequency := ⟨0, 0, 0⟩, exerciseProgress := [] }
    else
      let logs := db.workoutLogs.filter (fun l =>
        logInWorkouts workoutIds l && decide (startDate ≤ l.performedAt))
      let logIds := logs.map (fun l => l.id)
      let totalWorkouts := logs.length
      let totalDuration : Int := (logs.map (fun l => l.durationMinutes)).sum
      let sets :=
        if logIds.isEmpty then []
        else db.exerciseSets.filter (setInLogs logIds)
      let totalSets := sets.length
      let totalReps := (sets.map (fun s => s.reps.getD 0)).sum
      let uniqueExercises :=
        ((sets.filterMap (fun s => truthyId s.exerciseId)).dedup).length
      let estimatedCalories : ℚ := (totalDuration : ℚ) * (13 / 2)
      let freq : WorkoutFrequency :=
        { last7Days := (logs.filter (fun l =>
            decide (now - 7 * 86400 ≤ l.performedAt))).length
          last30Days := (logs.filter (fun l =>
            decide (now - 30 * 86400 ≤ l.performedAt))).length
          last90Days := (logs.filter (fun l =>
            decide (now - 90 * 86400 ≤ l.performedAt))).length }
      let entries := (groupKeys sets).filterMap (fun eid =>
        (db.exercises.find? (fun e => e.id == eid)).map (fun ex =>
          let a := exerciseAgg (sets.filter (fun s => s.exerciseId == some eid))
          ({ exerciseId := eid, exerciseName := ex.name,
             totalSets := a.totalSets, totalReps := a.totalReps,
             maxWeightKg := a.maxWeight, avgWeightKg := a.avgWeight }
            : ExerciseProgressEntry)))
      .ok { userId := userId, totalWorkouts := totalWorkouts,
            totalExercises := uniqueExercises, totalSets := totalSets,
            totalReps := totalReps, totalDurationMinutes := totalDuration,
            estimatedCaloriesBurned := estimatedCalories,
            workoutFrequency := freq,
            exerciseProgress := insertionSortByDesc entries }

/-- One entry of the `progression` timeline of GET /progress/exercise/...
(progress.py lines 294-301): `reps or 0`, weight 0.0 when null or zero,
`rpe` passed through with null and zero both rendered as null (Python
`float(x) if x else None`). -/
structure ProgressionEntry where
  date : Int
  reps : Int
  weightKg : ℚ
  rpe : Option ℚ
  setNumber : Nat
  deriving DecidableEq

/-- Response body of GET /progress/exercise/(exercise_id)
(`ExerciseProgress`).  The handler rounds `max_weight` and `avg_weight` to
two decimals for display at lines 308-309 (a floating-point formatting step);
the cited statistics computation (lines 286-290) is modelled exactly and the
display rounding is not repeated here. -/
structure ExerciseProgressDetail where
  exerciseId : Nat
  exerciseName : String
  totalSets : Nat
  totalReps : Int
  maxWeightKg : ℚ
  avgWeightKg : ℚ
  progression : List ProgressionEntry
  deriving DecidableEq

/-- Stable insertion into an ascending-by-key list. -/
def insertAscBy {α : Type} (key : α → Int) (e : α) : List α → List α
  | [] => [e]
  | x :: xs => if key e < key x then e :: x :: xs else x :: insertAscBy key e xs

/-- Model of the SQL `ORDER BY performed_at` (ascending, tie order left
unspecified by the store; this model keeps insertion order among ties). -/
def sortAscBy {α : Type} (key : α → Int) (l : List α) : List α :=
  l.foldr (insertAscBy key) []

/-- GET /progress/exercise/(exercise_id) (`get_exercise_progress`,
progress.py lines 188-311), with the current time passed explicitly. -/
def get_exercise_progress (db : Db) (userId : Nat) (exerciseId : Nat)
    (days : Nat) (now : Int) : Except ApiError ExerciseProgressDetail :=
  if ¬ userExists db userId then
    .error (.notFound ("User with ID " ++ toString userId ++ " not found"))
  else
    match db.exercises.find? (fun e => e.id == exerciseId) with
    | none =>
      .error (.notFound ("Exercise with ID " ++ toString exerciseId ++ " not found"))
    | some exercise =>
      let startDate := now - (days : Int) * 86400
      let workoutIds :=
        (db.workouts.filter (fun w => w.userId == userId)).map (fun w => w.id)
      let empty : ExerciseProgressDetail :=
        { exerciseId := exerciseId, exerciseName := exercise.name,
          totalSets := 0, totalReps := 0, maxWeightKg := 0, avgWeightKg := 0,
          progression := [] }
      if workoutIds.isEmpty then .ok empty
      else
        let logs := db.workoutLogs.filter (fun l =>
          logInWorkouts workoutIds l && decide (startDate ≤ l.performedAt))
        let logIds := logs.map (fun l => l.id)
        if logIds.isEmpty then .ok empty
        else
          let joined := db.exerciseSets.filterMap (fun s =>
            match s.workoutLogId with
            | none => none
            | some i =>
              if logIds.contains i && s.exerciseId == some exerciseId then
                (db.workoutLogs.find? (fun l => l.id == i)).map (fun l => (s, l))
              else none)
          let pairs := sortAscBy (fun p => p.2.performedAt) joined
          if pairs.isEmpty then .ok empty
          else
            let a := exerciseAgg (pairs.map (fun p => p.1))
            let progression := pairs.map (fun p =>
              ({ date := p.2.performedAt, reps := p.1.reps.getD 0,
                 weightKg := (truthyWeight p.1.weightKg).getD 0,
                 rpe := truthyWeight p.1.rpe,
                 setNumber := p.1.setNumber } : ProgressionEntry))
            .ok { exerciseId := exerciseId, exerciseName := exercise.name,
                  totalSets := a.totalSets, totalReps := a.totalReps,
                  maxWeightKg := a.maxWeight, avgWeightKg := a.avgWeight,
                  progression := progression }

/-- Clears the three input fields (`workout_log_id`, `exercise_id`,
`set_number`) that the request schema admits but `log_exercise_sets` never
reads. -/
def scrubLinks (s : ExerciseSetCreate) : ExerciseSetCreate :=
  { s with workoutLogId := none, exerciseId := none, setNumber := none }

/-- The user's workout-log rows with performed-at within the last `k` days
from `now` — the count the spec ascribes to the frequency buckets. -/
def countUserLogsWithin (db : Db) (userId : Nat) (now : Int) (k : Nat) : Nat :=
  (db.workoutLogs.filter (fun l =>
    logInWorkouts
        ((db.workouts.filter (fun w => w.userId == userId)).map (fun w => w.id)) l
      && decide (now - (k : Int) * 86400 ≤ l.performedAt))).length

/-! ## Concrete stores and requests used to instantiate the theorems -/

def exBench : Exercise := ⟨1, "Bench Press", some "chest", none⟩

def exRow : Exercise := ⟨2, "Barbell Row", some "back", none⟩

/-- Store with one user and a two-exercise catalog. -/
def dbGen : Db :=
  { users := [⟨1⟩], equipment := [], exercises := [exBench, exRow],
    workouts := [], workoutExercises := [], workoutLogs := [],
    exerciseSets := [] }

def reqGen : WorkoutGenerateRequest :=
  { userId := 1, goal := "Strength", equipment := none,
    durationMinutes := some 45 }

def reqGenNoDuration : WorkoutGenerateRequest :=
  { userId := 1, goal := "strength", equipment := none,
    durationMinutes := none }

def reqGenBadGoal : WorkoutGenerateRequest :=
  { userId := 1, goal := "yoga", equipment := none,
    durationMinutes := some 45 }

/-- Entirely empty store. -/
def dbEmpty : Db :=
  { users := [], equipment := [], exercises := [], workouts := [],
    workoutExercises := [], workoutLogs := [], exerciseSets := [] }

def reqGenNoUser : WorkoutGenerateRequest :=
  { userId := 7, goal := "yoga", equipment := none,
    durationMinutes := some 45 }

/-- Custom-workout request with an unvalidated goal string. -/
def reqCustomBogus : CustomWorkoutRequest :=
  { userId := 1, goal := "bogus",
    exercises := [{ exerciseId := 1, targetSets := none, targetReps := none,
                    restSeconds := none }] }

/-- Custom-workout request listing the same existing exercise id twice. -/
def reqCustomDup : CustomWorkoutRequest :=
  { userId := 1, goal := "strength",
    exercises := [{ exerciseId := 1, targetSets := some 4, targetReps := none,
                    restSeconds := none },
                  { exerciseId := 1, targetSets := none, targetReps := none,
                    restSeconds := none }] }

/-- Store with a workout, its exercise link and one logged session, ready for
set logging. -/
def dbLog : Db :=
  { users := [⟨1⟩], equipment := [], exercises := [exBench],
    workouts := [⟨0, 1, "strength"⟩],
    workoutExercises := [⟨0, 1, 5, 5, 180⟩],
    workoutLogs := [⟨0, some 0, 1000, 30⟩],
    exerciseSets := [] }

def setsBatch : List ExerciseSetCreate :=
  [{ workoutLogId := none, exerciseId := none, setNumber := none,
     reps := some 5, weightKg := some 20, rpe := none },
   { workoutLogId := some 99, exerciseId := some 42, setNumber := some 7,
     reps := some 5, weightKg := some 22, rpe := some 8 }]

/-- Store with one user, one workout and one session logged 10 days before
`nowProg`. -/
def dbProg : Db :=
  { users := [⟨1⟩], equipment := [], exercises := [exBench],
    workouts := [⟨0, 1, "general"⟩], workoutExercises := [],
    workoutLogs := [⟨0, some 0, 90 * 86400, 30⟩], exerciseSets := [] }

def nowProg : Int := 100 * 86400

/-- The summary `get_progress_summary dbProg 1 30 nowProg` evaluates to
(the calories field equals 195). -/
def summaryFixture30 : ProgressSummary :=
  { userId := 1, totalWorkouts := 1, totalExercises := 0, totalSets := 0,
    totalReps := 0, totalDurationMinutes := 30,
    estimatedCaloriesBurned := ((30 : Int) : ℚ) * (13 / 2),
    workoutFrequency := ⟨0, 1, 1⟩,
    exerciseProgress := [] }

/-- Response of `generate_workout sampleTake dbGen reqGen`. -/
def genRespFixture : WorkoutGenerateResponse :=
  { workoutId := 0, goal := "strength",
    exercises := [⟨1, "Bench Press", some "chest", 5, 5, 180⟩,
                  ⟨2, "Barbell Row", some "back", 5, 5, 180⟩],
    estimatedDuration := 32 }

/-- Store state after `generate_workout sampleTake dbGen reqGen`. -/
def dbGenAfter : Db :=
  { dbGen with
     workouts := [⟨0, 1, "strength"⟩],
     workoutExercises := [⟨0, 1, 5, 5, 180⟩, ⟨0, 2, 5, 5, 180⟩] }

/-- Response of `create_custom_workout dbGen reqCustomBogus`. -/
def customRespFixture : WorkoutGenerateResponse :=
  { workoutId := 0, goal := "bogus",
    exercises := [⟨1, "Bench Press", some "chest", 3, 10, 90⟩],
    estimatedDuration := 6 }

/-- Store state after `create_custom_workout dbGen reqCustomBogus`. -/
def dbCustomAfter : Db :=
  { dbGen with
     workouts := [⟨0, 1, "bogus"⟩],
     workoutExercises := [⟨0, 1, 3, 10, 90⟩] }

/-- Sets group with one null weight, one zero weight and two real weights,
used to instantiate the aggregation theorem. -/
def groupSample : List ExerciseSetRow :=
  [{ workoutLogId := some 0, exerciseId := some 1, setNumber := 1,
     reps := some 5, weightKg := some 20, rpe := none },
   { workoutLogId := some 0, exerciseId := some 1, setNumber := 2,
     reps := none, weightKg := some 0, rpe := none },
   { workoutLogId := some 0, exerciseId := some 1, setNumber := 3,
     reps := some 8, weightKg := none, rpe := none },
   { workoutLogId := some 0, exerciseId := some 1, setNumber := 4,
     reps := some 3, weightKg := some 30, rpe := some 9 }]

/-! ## Helper lemmas -/

theorem enumFrom_map_fst_succ {α : Type} :
    ∀ (l : List α) (i : Nat),
      (List.enumFrom i l).map (fun p => p.1 + 1) = List.range' (i + 1) l.length := by
  intro l
  induction l with
  | nil => intro i; rfl
  | cons x xs ih =>
    intro i
    simp [List.enumFrom, List.range', ih (i + 1)]

theorem foldl_max_spec (w : ℚ) (ws : List ℚ) :
    ws.foldl max w ∈ w :: ws ∧ ∀ x ∈ w :: ws, x ≤ ws.foldl max w := by
  induction ws generalizing w with
  | nil => simp
  | cons y ys ih =>
    obtain ⟨hmem, hle⟩ := ih (max w y)
    constructor
    · show ys.foldl max (max w y) ∈ w :: y :: ys
      rcases List.mem_cons.mp hmem with h | h
      · rcases max_choice w y with hc | hc
        · exact List.mem_cons.mpr (Or.inl (h.trans hc))
        · exact List.mem_cons.mpr
            (Or.inr (List.mem_cons.mpr (Or.inl (h.trans hc))))
      · exact List.mem_cons.mpr (Or.inr (List.mem_cons.mpr (Or.inr h)))
    · intro x hx
      show x ≤ ys.foldl max (max w y)
      rcases List.mem_cons.mp hx with rfl | hx'
      · exact le_trans (le_max_left x y) (hle _ (by simp))
      · rcases List.mem_cons.mp hx' with rfl | hx''
        · exact le_trans (le_max_right w x) (hle _ (by simp))
        · exact hle x (by simp [hx''])

theorem enumFrom_map_proj {α β γ : Type} (g : α → β) (f : Nat × β → γ) :
    ∀ (l : List α) (i : Nat),
      (List.enumFrom i (l.map g)).map f =
        (List.enumFrom i l).map (fun p => f (p.1, g p.2)) := by
  intro l
  induction l with
  | nil => intro i; rfl
  | cons x xs ih =>
    intro i
    simp only [List.map_cons, List.enumFrom, ih (i + 1)]

/-! ## Claim theorems -/

/-- C1 (counterexample): with a single session logged 10 days ago, the
summary called with `windowDays = 7` reports `last_30_days = 0` even though
one log lies within the last 30 days (third conjunct), while the same store
queried with `windowDays = 30` reports `last_30_days = 1`: the frequency
buckets are not independent of the window parameter and do not count all
logs of the fixed 30-day window. -/
theorem c1_frequency_counterexample :
    (get_progress_summary dbProg 1 7 nowProg).toOption.map
        (fun s => s.workoutFrequency.last30Days) = some 0 ∧
      (get_progress_summary dbProg 1 30 nowProg).toOption.map
        (fun s => s.workoutFrequency.last30Days) = some 1 ∧
      countUserLogsWithin dbProg 1 nowProg 30 = 1 := by
  refine ⟨rfl, rfl, rfl⟩

/-- C1 (amended): each frequency bucket of the summary counts the user's
logs with performed-at within the last `min k windowDays` days from now
(`k` being 7, 30, 90), because the buckets are computed over the logs already
restricted to the summary window; they agree with the spec's fixed windows
only when `windowDays` is at least the bucket width. -/
theorem c1_frequency_amended (db : Db) (userId days : Nat) (now : Int)
    (s : ProgressSummary)
    (h : get_progress_summary db userId days now = .ok s) :
    s.workoutFrequency.last7Days = countUserLogsWithin db userId now (min 7 days) ∧
      s.workoutFrequency.last30Days = countUserLogsWithin db userId now (min 30 days) ∧
      s.workoutFrequency.last90Days = countUserLogsWithin db userId now (min 90 days) := by
  have hM : ∀ k : Nat, ((min k days : Nat) : Int) * 86400 =
      min ((k : Int) * 86400) ((days : Int) * 86400) := by
    intro k; push_cast; omega
  have hbucket : ∀ k : Nat,
      ((db.workoutLogs.filter (fun l =>
          logInWorkouts
              ((db.workouts.filter (fun w => w.userId == userId)).map (fun w => w.id)) l
            && decide (now - (days : Int) * 86400 ≤ l.performedAt))).filter
        (fun l => decide (now - (k : Int) * 86400 ≤ l.performedAt))).length =
        countUserLogsWithin db userId now (min k days) := by
    intro k
    unfold countUserLogsWithin
    rw [List.filter_filter]
    congr 1
    apply List.filter_congr
    intro l _
    cases hw : logInWorkouts
        ((db.workouts.filter (fun w => w.userId == userId)).map (fun w => w.id)) l with
    | false => simp
    | true =>
      simp only [Bool.true_and, ← Bool.decide_and, decide_eq_decide, hM k]
      omega
  simp only [get_progress_summary] at h
  split at h
  · simp at h
  · split at h
    · rename_i hempty
      injection h with h
      subst h
      have hids :
          ((db.workouts.filter (fun w => w.userId == userId)).map (fun w => w.id)) = [] := by
        simpa using hempty
      have hcount : ∀ m : Nat, countUserLogsWithin db userId now m = 0 := by
        intro m
        unfold countUserLogsWithin
        rw [hids]
        have hfalse : ∀ l : WorkoutLog, logInWorkouts [] l = false := by
          intro l; unfold logInWorkouts; cases l.workoutId <;> simp
        simp [hfalse]
      simp [hcount]
    · injection h with h
      subst h
      exact ⟨hbucket 7, hbucket 30, hbucket 90⟩

/-- Witness for C1 (amended) at the store with one session logged 10 days
ago and `windowDays = 30`. -/
theorem c1_frequency_amended_witness :
    get_progress_summary dbProg 1 30 nowProg = .ok summaryFixture30 ∧
      summaryFixture30.workoutFrequency.last7Days =
        countUserLogsWithin dbProg 1 nowProg (min 7 30) ∧
      summaryFixture30.workoutFrequency.last30Days =
        countUserLogsWithin dbProg 1 nowProg (min 30 30) ∧
      summaryFixture30.workoutFrequency.last90Days =
        countUserLogsWithin dbProg 1 nowProg (min 90 30) :=
  ⟨rfl, c1_frequency_amended dbProg 1 30 nowProg summaryFixture30 rfl⟩

/-- C2 (counterexample): a custom-workout request whose goal `"bogus"` is
outside the valid set succeeds and persists a Workout row carrying
`"bogus"`: `create_custom_workout` performs no goal validation. -/
theorem c2_goal_counterexample :
    validGoals.contains "bogus" = false ∧
      (create_custom_workout dbGen reqCustomBogus).toOption.map
        (fun p => p.2.workouts.map (fun w => w.goal)) = some ["bogus"] :=
  ⟨by decide, rfl⟩

/-- C2 (amended): only `generate` validates the goal at the API boundary —
on success the persisted Workout carries the lowercased goal, which is one of
the five valid labels; `create_custom_workout` persists the request's goal
string verbatim, with no validation at all. -/
theorem c2_goal_validation_amended :
    (∀ (sample : List Exercise → Nat → List Exercise) (db : Db)
        (req : WorkoutGenerateRequest) (resp : WorkoutGenerateResponse)
        (db' : Db), generate_workout sample db req = .ok (resp, db') →
          db'.workouts =
            db.workouts ++ [⟨freshWorkoutId db, req.userId, (pyLower req.goal)⟩] ∧
            validGoals.contains (pyLower req.goal) = true) ∧
      (∀ (db : Db) (req : CustomWorkoutRequest)
          (resp : WorkoutGenerateResponse) (db' : Db),
        create_custom_workout db req = .ok (resp, db') →
          db'.workouts =
            db.workouts ++ [⟨freshWorkoutId db, req.userId, req.goal⟩]) := by
  constructor
  · intro sample db req resp db' h
    simp only [generate_workout] at h
    split at h
    · simp at h
    · split at h
      · simp at h
      · rename_i hgoal
        split at h
        · simp at h
        · split at h
          · simp at h
          · simp only [Except.ok.injEq, Prod.mk.injEq] at h
            obtain ⟨-, h2⟩ := h
            subst h2
            refine ⟨rfl, ?_⟩
            by_contra hc
            exact hgoal (by simpa using hc)
  · intro db req resp db' h
    simp only [create_custom_workout] at h
    split at h
    · simp at h
    · split at h
      · simp at h
      · split at h
        · simp at h
        · simp only [Except.ok.injEq, Prod.mk.injEq] at h
          obtain ⟨-, h2⟩ := h
          subst h2
          rfl

/-- Witness for C2 (amended): a successful `generate` call stores the valid
lowercased goal, and a successful custom call stores its goal verbatim. -/
theorem c2_goal_validation_amended_witness :
    generate_workout sampleTake dbGen reqGen = .ok (genRespFixture, dbGenAfter) ∧
      (dbGenAfter.workouts =
          dbGen.workouts ++
            [⟨freshWorkoutId dbGen, reqGen.userId, pyLower reqGen.goal⟩] ∧
        validGoals.contains (pyLower reqGen.goal) = true) ∧
      create_custom_workout dbGen reqCustomBogus =
        .ok (customRespFixture, dbCustomAfter) ∧
      dbCustomAfter.workouts =
        dbGen.workouts ++
          [⟨freshWorkoutId dbGen, reqCustomBogus.userId, reqCustomBogus.goal⟩] :=
  ⟨rfl,
    c2_goal_validation_amended.1 sampleTake dbGen reqGen genRespFixture
      dbGenAfter rfl,
    rfl,
    c2_goal_validation_amended.2 dbGen reqCustomBogus customRespFixture
      dbCustomAfter rfl⟩

/-- C3 (counterexample): a `generate` call whose goal `"yoga"` is invalid but
whose user id does not exist fails with NotFound, not InvalidArgument — the
user check precedes the goal check, so an invalid-goal call does not always
fail InvalidArgument (the store is still left unchanged). -/
theorem c3_invalid_goal_counterexample :
    validGoals.contains (pyLower reqGenNoUser.goal) = false ∧
      runGenerate sampleTake dbEmpty reqGenNoUser =
        (.error (.notFound "User with ID 7 not found"), dbEmpty) :=
  ⟨by decide, rfl⟩

/-- C3 (amended): for every `generate` call whose user exists and whose goal
is not (case-insensitively) one of the five valid goals, the call fails with
InvalidArgument and the store is unchanged; when the user does not exist the
call instead fails NotFound, the store again unchanged. -/
theorem c3_invalid_goal_amended
    (sample : List Exercise → Nat → List Exercise) (db : Db)
    (req : WorkoutGenerateRequest)
    (hgoal : validGoals.contains (pyLower req.goal) = false) :
    (userExists db req.userId = true →
      runGenerate sample db req =
        (.error (.invalidArgument
          "Invalid goal. Must be one of: strength, hypertrophy, endurance, weight_loss, general"),
         db)) ∧
      (userExists db req.userId = false →
        runGenerate sample db req =
          (.error (.notFound
            ("User with ID " ++ toString req.userId ++ " not found")), db)) := by
  constructor
  · intro huser
    simp only [runGenerate, generate_workout, commitOrRollback, huser, hgoal]
    simp
  · intro huser
    simp only [runGenerate, generate_workout, commitOrRollback, huser]
    simp

/-- Witness for C3 (amended) at a one-user store and the goal `"yoga"`. -/
theorem c3_invalid_goal_amended_witness :
    validGoals.contains (pyLower reqGenBadGoal.goal) = false ∧
      userExists dbGen reqGenBadGoal.userId = true ∧
      runGenerate sampleTake dbGen reqGenBadGoal =
        (.error (.invalidArgument
          "Invalid goal. Must be one of: strength, hypertrophy, endurance, weight_loss, general"),
         dbGen) :=
  ⟨by decide, rfl,
    (c3_invalid_goal_amended sampleTake dbGen reqGenBadGoal (by decide)).1 rfl⟩

/-- C10: when `duration_minutes` is explicitly null on an otherwise valid
request (existing user, valid goal, non-empty filtered catalog), the
`target_exercise_count` computation `request.duration_minutes // 10` raises
an unhandled TypeError — neither NotFound nor InvalidArgument — and, the
raise occurring before `db.add`, no Workout or WorkoutExercise row is
written. -/
theorem c10_null_duration_type_error
    (sample : List Exercise → Nat → List Exercise) (db : Db)
    (req : WorkoutGenerateRequest)
    (hdur : req.durationMinutes = none)
    (huser : userExists db req.userId = true)
    (hgoal : validGoals.contains (pyLower req.goal) = true)
    (hcat : (filterByEquipment db req.equipment).isEmpty = false) :
    runGenerate sample db req =
      (.error (.typeError
        "unsupported operand type(s) for floor division: NoneType and int"), db) := by
  simp only [runGenerate, generate_workout, commitOrRollback, huser, hgoal,
    hcat, hdur]
  simp

/-- Witness for C10 at the two-exercise store, duration explicitly null. -/
theorem c10_null_duration_type_error_witness :
    reqGenNoDuration.durationMinutes = none ∧
      userExists dbGen reqGenNoDuration.userId = true ∧
      validGoals.contains (pyLower reqGenNoDuration.goal) = true ∧
      (filterByEquipment dbGen reqGenNoDuration.equipment).isEmpty = false ∧
      runGenerate sampleTake dbGen reqGenNoDuration =
        (.error (.typeError
          "unsupported operand type(s) for floor division: NoneType and int"),
         dbGen) :=
  ⟨rfl, rfl, by decide, rfl,
    c10_null_duration_type_error sampleTake dbGen reqGenNoDuration rfl rfl
      (by decide) rfl⟩

/-- C6: a successful `logSets` call over a batch of n input sets creates
exactly n ExerciseSet rows, numbered 1..n in input order, appended to the
store; the numbering depends only on the batch, never on the sets already
logged (the statement holds for every store, in particular stores already
holding sets for the same log and exercise). -/
theorem c6_set_numbering (db : Db) (workoutId exerciseId : Nat)
    (sets : List ExerciseSetCreate) (rows : List ExerciseSetRow) (db' : Db)
    (h : log_exercise_sets db workoutId exerciseId sets = .ok (rows, db')) :
    rows.map (fun r => r.setNumber) = List.range' 1 sets.length ∧
      rows.length = sets.length ∧
      db'.exerciseSets = db.exerciseSets ++ rows := by
  simp only [log_exercise_sets] at h
  split at h
  · simp at h
  · split at h
    · simp at h
    · split at h
      · simp at h
      · split at h
        · simp at h
        · split at h
          · simp at h
          · simp only [Except.ok.injEq, Prod.mk.injEq] at h
            obtain ⟨hrows, hdb⟩ := h
            subst hrows
            subst hdb
            refine ⟨?_, by simp, rfl⟩
            rw [List.map_map]
            exact enumFrom_map_fst_succ sets 0

/-- Witness for C6: logging a two-set batch creates rows numbered 1 and 2. -/
theorem c6_set_numbering_witness :
    log_exercise_sets dbLog 0 1 setsBatch =
      .ok ([{ workoutLogId := some 0, exerciseId := some 1, setNumber := 1,
              reps := some 5, weightKg := some 20, rpe := none },
            { workoutLogId := some 0, exerciseId := some 1, setNumber := 2,
              reps := some 5, weightKg := some 22, rpe := some 8 }],
           { dbLog with exerciseSets :=
              [{ workoutLogId := some 0, exerciseId := some 1, setNumber := 1,
                 reps := some 5, weightKg := some 20, rpe := none },
               { workoutLogId := some 0, exerciseId := some 1, setNumber := 2,
                 reps := some 5, weightKg := some 22, rpe := some 8 }] }) ∧
      [(1 : Nat), 2].map (fun r => r) = List.range' 1 setsBatch.length := by
  constructor
  · rfl
  · have h := c6_set_numbering dbLog 0 1 setsBatch _ _ (by rfl)
    simpa using h.1

/-- C9: `logSets` ignores the `workout_log_id`, `exercise_id` and
`set_number` fields the request schema admits on each input item (clearing
them changes nothing), and each persisted row takes its workout-log id from
the resolved most-recent log, its exercise id from the path parameter, its
set number from the item's position, and only `reps`, `weight_kg`, `rpe`
from the input item. -/
theorem c9_input_links_ignored (db : Db) (workoutId exerciseId : Nat)
    (sets : List ExerciseSetCreate) :
    log_exercise_sets db workoutId exerciseId (sets.map scrubLinks) =
        log_exercise_sets db workoutId exerciseId sets ∧
      (∀ (log : WorkoutLog) (rows : List ExerciseSetRow) (db' : Db),
        mostRecentLog db workoutId = some log →
        log_exercise_sets db workoutId exerciseId sets = .ok (rows, db') →
        rows = sets.enum.map (fun p =>
          ({ workoutLogId := some log.id, exerciseId := some exerciseId,
             setNumber := p.1 + 1, reps := p.2.reps, weightKg := p.2.weightKg,
             rpe := p.2.rpe } : ExerciseSetRow))) := by
  have hempty : (sets.map scrubLinks).isEmpty = sets.isEmpty := by
    cases sets <;> rfl
  have henum : ∀ logId : Nat,
      (List.map scrubLinks sets).enum.map (fun p =>
        ({ workoutLogId := some logId, exerciseId := some exerciseId,
           setNumber := p.1 + 1, reps := p.2.reps, weightKg := p.2.weightKg,
           rpe := p.2.rpe } : ExerciseSetRow)) =
        sets.enum.map (fun p =>
          ({ workoutLogId := some logId, exerciseId := some exerciseId,
             setNumber := p.1 + 1, reps := p.2.reps, weightKg := p.2.weightKg,
             rpe := p.2.rpe } : ExerciseSetRow)) := by
    intro logId
    exact enumFrom_map_proj scrubLinks _ sets 0
  constructor
  · simp only [log_exercise_sets, hempty, henum]
  · intro log rows db' hlog h
    simp only [log_exercise_sets] at h
    split at h
    · simp at h
    · split at h
      · simp at h
      · split at h
        · simp at h
        · split at h
          · simp at h
          · split at h
            · simp at h
            · rename_i log' heq
              rw [hlog] at heq
              injection heq with heq
              subst heq
              simp only [Except.ok.injEq, Prod.mk.injEq] at h
              exact h.1.symm

/-- Witness for C9: with link fields set to junk values (`workout_log_id` 99,
`exercise_id` 42, `set_number` 7) in the second input item, the call result
is unchanged and the rows carry the resolved log id 0, the path exercise id
1, and positional numbering. -/
theorem c9_input_links_ignored_witness :
    log_exercise_sets dbLog 0 1 (setsBatch.map scrubLinks) =
        log_exercise_sets dbLog 0 1 setsBatch ∧
      mostRecentLog dbLog 0 = some ⟨0, some 0, 1000, 30⟩ ∧
      log_exercise_sets dbLog 0 1 setsBatch =
        .ok ([{ workoutLogId := some 0, exerciseId := some 1, setNumber := 1,
                reps := some 5, weightKg := some 20, rpe := none },
              { workoutLogId := some 0, exerciseId := some 1, setNumber := 2,
                reps := some 5, weightKg := some 22, rpe := some 8 }],
             { dbLog with exerciseSets :=
                [{ workoutLogId := some 0, exerciseId := some 1, setNumber := 1,
                   reps := some 5, weightKg := some 20, rpe := none },
                 { workoutLogId := some 0, exerciseId := some 1, setNumber := 2,
                   reps := some 5, weightKg := some 22, rpe := some 8 }] }) ∧
      [{ workoutLogId := some 0, exerciseId := some 1, setNumber := 1,
         reps := some 5, weightKg := some 20, rpe := none },
       { workoutLogId := some 0, exerciseId := some 1, setNumber := 2,
         reps := some 5, weightKg := some 22, rpe := some 8 }] =
        setsBatch.enum.map (fun p =>
          ({ workoutLogId := some (0 : Nat), exerciseId := some (1 : Nat),
             setNumber := p.1 + 1, reps := p.2.reps, weightKg := p.2.weightKg,
             rpe := p.2.rpe } : ExerciseSetRow)) :=
  ⟨(c9_input_links_ignored dbLog 0 1 setsBatch).1, rfl, rfl,
    (c9_input_links_ignored dbLog 0 1 setsBatch).2 ⟨0, some 0, 1000, 30⟩ _ _
      rfl rfl⟩

/-- Sum of the uniform per-exercise durations over the details built from a
selected list: the prescription being constant, the sum collapses to
`length * sets * (reps*3 + rest)`. -/
theorem sum_map_detail (l : List Exercise) (p : Prescription) :
    ((l.map (fun ex =>
      ({ exerciseId := ex.id, exerciseName := ex.name,
         primaryMuscle := ex.primaryMuscle, targetSets := p.sets,
         targetReps := p.reps, restSeconds := p.rest } : ExerciseDetail))).map
        (fun d => d.targetSets * (d.targetReps * 3 + d.restSeconds))).sum =
      (l.length : Int) * (p.sets * (p.reps * 3 + p.rest)) := by
  induction l with
  | nil => simp
  | cons x xs ih =>
    simp only [List.map_cons, List.sum_cons, ih, List.length_cons]
    push_cast
    ring

/-- The resolved-row count of the custom-workout existence check: when the
catalog ids are distinct, every requested id resolves, and the request list
repeats an id, the filter length (one row per distinct requested id) is
strictly below the request length, so the equality check fails. -/
theorem filter_contains_length_of_dup {ids : List Nat} {exs : List Exercise}
    (hnodup : (exs.map (fun e => e.id)).Nodup)
    (hall : ∀ i ∈ ids, ∃ e ∈ exs, e.id = i)
    (hdup : ¬ ids.Nodup) :
    (exs.filter (fun e => ids.contains e.id)).length ≠ ids.length := by
  have hsubl : (exs.filter (fun e => ids.contains e.id)).Sublist exs :=
    List.filter_sublist _
  have hresnodup :
      ((exs.filter (fun e => ids.contains e.id)).map (fun e => e.id)).Nodup :=
    hnodup.sublist (hsubl.map (fun e => e.id))
  have hmemiff : ∀ x : Nat,
      x ∈ (exs.filter (fun e => ids.contains e.id)).map (fun e => e.id) ↔
        x ∈ ids.dedup := by
    intro x
    constructor
    · intro hx
      rcases List.mem_map.mp hx with ⟨e, he, rfl⟩
      rcases List.mem_filter.mp he with ⟨-, hc⟩
      exact List.mem_dedup.mpr (by simpa using hc)
    · intro hx
      have hx' := List.mem_dedup.mp hx
      rcases hall x hx' with ⟨e, he, rfl⟩
      refine List.mem_map.mpr ⟨e, List.mem_filter.mpr ⟨he, ?_⟩, rfl⟩
      simpa using hx'
  have hperm :
      ((exs.filter (fun e => ids.contains e.id)).map (fun e => e.id)).Perm
        ids.dedup :=
    (List.perm_ext_iff_of_nodup hresnodup ids.nodup_dedup).mpr hmemiff
  have hlen : (exs.filter (fun e => ids.contains e.id)).length =
      ids.dedup.length := by
    simpa using hperm.length_eq
  have hlt : ids.dedup.length < ids.length := by
    have hsub : ids.dedup.Sublist ids := ids.dedup_sublist
    rcases Nat.lt_or_ge ids.dedup.length ids.length with h | h
    · exact h
    · exfalso
      have heq : ids.dedup = ids :=
        hsub.eq_of_length (Nat.le_antisymm hsub.length_le h)
      exact hdup (heq ▸ ids.nodup_dedup)
  omega

/-- C5: the estimated duration returned by a successful `generate` equals
the floor of `sum over the selected exercises of targetSets * (targetReps*3
+ restSeconds)` divided by 60 — the code computes `len(selected) *
target_sets * (target_reps*3 + rest_seconds) // 60`, which coincides with
the sum form because the prescription is uniform across the selected
exercises. -/
theorem c5_estimated_duration (sample : List Exercise → Nat → List Exercise)
    (db : Db) (req : WorkoutGenerateRequest)
    (resp : WorkoutGenerateResponse) (db' : Db)
    (h : generate_workout sample db req = .ok (resp, db')) :
    resp.estimatedDuration =
      Int.fdiv ((resp.exercises.map (fun d =>
        d.targetSets * (d.targetReps * 3 + d.restSeconds))).sum) 60 := by
  simp only [generate_workout] at h
  split at h
  · simp at h
  · split at h
    · simp at h
    · split at h
      · simp at h
      · split at h
        · simp at h
        · simp only [Except.ok.injEq, Prod.mk.injEq] at h
          obtain ⟨h1, -⟩ := h
          subst h1
          dsimp only
          rw [sum_map_detail]
          congr 1
          ring

/-- Witness for C5 at the two-exercise store: est 32 = floor(3900/60). -/
theorem c5_estimated_duration_witness :
    generate_workout sampleTake dbGen reqGen = .ok (genRespFixture, dbGenAfter) ∧
      genRespFixture.estimatedDuration =
        Int.fdiv ((genRespFixture.exercises.map (fun d =>
          d.targetSets * (d.targetReps * 3 + d.restSeconds))).sum) 60 :=
  ⟨rfl, c5_estimated_duration sampleTake dbGen reqGen genRespFixture
    dbGenAfter rfl⟩

/-- C8: a custom-workout request whose exercise ids all exist in the catalog
but contain a repetition fails NotFound and persists nothing: the SQL `IN`
query returns each matching row once, so the resolved-row count (the number
of distinct requested ids) is strictly below the duplicate-counting request
length, and the `len(exercises) != len(exercise_ids)` check fires.  (If the
user id also fails to resolve the call still fails NotFound, one check
earlier.) -/
theorem c8_duplicate_ids_not_found (db : Db) (req : CustomWorkoutRequest)
    (hnodup : (db.exercises.map (fun e => e.id)).Nodup)
    (hall : ∀ i ∈ req.exercises.map (fun s => s.exerciseId),
      ∃ e ∈ db.exercises, e.id = i)
    (hdup : ¬ (req.exercises.map (fun s => s.exerciseId)).Nodup) :
    (∃ msg, create_custom_workout db req = .error (.notFound msg)) ∧
      (runCustom db req).2 = db := by
  by_cases huser : userExists db req.userId = true
  · have hne : req.exercises.isEmpty = false := by
      cases hx : req.exercises with
      | nil =>
        exfalso
        apply hdup
        rw [hx]
        exact List.nodup_nil
      | cons a l => rfl
    have hcheck := filter_contains_length_of_dup hnodup hall hdup
    have herr : create_custom_workout db req =
        .error (.notFound "One or more exercises not found") := by
      simp only [create_custom_workout]
      rw [if_neg (by simp [huser]), if_neg (by simp [hne]), if_pos hcheck]
    exact ⟨⟨_, herr⟩, by simp [runCustom, commitOrRollback, herr]⟩
  · have herr : create_custom_workout db req =
        .error (.notFound
          ("User with ID " ++ toString req.userId ++ " not found")) := by
      simp only [create_custom_workout]
      simp [huser]
    exact ⟨⟨_, herr⟩, by simp [runCustom, commitOrRollback, herr]⟩

/-- Witness for C8: requesting exercise 1 twice (both resolving to the
catalog row with id 1) fails NotFound and leaves the store unchanged. -/
theorem c8_duplicate_ids_not_found_witness :
    (dbGen.exercises.map (fun e => e.id)).Nodup ∧
      (∀ i ∈ reqCustomDup.exercises.map (fun s => s.exerciseId),
        ∃ e ∈ dbGen.exercises, e.id = i) ∧
      ¬ (reqCustomDup.exercises.map (fun s => s.exerciseId)).Nodup ∧
      (∃ msg, create_custom_workout dbGen reqCustomDup =
        .error (.notFound msg)) ∧
      (runCustom dbGen reqCustomDup).2 = dbGen := by
  have h := c8_duplicate_ids_not_found dbGen reqCustomDup (by decide)
    (by decide) (by decide)
  exact ⟨by decide, by decide, by decide, h.1, h.2⟩

/-- The `weights` list the code builds (truthy weights, via `filterMap`)
coincides with the spec-side filter-then-project formulation. -/
theorem truthyWeights_eq (group : List ExerciseSetRow) :
    group.filterMap (fun s => truthyWeight s.weightKg) =
      specTruthyWeights group := by
  induction group with
  | nil => rfl
  | cons s gs ih =>
    have hstep : specTruthyWeights (s :: gs) =
        (match truthyWeight s.weightKg with
          | none => specTruthyWeights gs
          | some q => q :: specTruthyWeights gs) := by
      unfold specTruthyWeights truthyWeight
      cases hw : s.weightKg with
      | none => simp [List.filter_cons, hw]
      | some q =>
        by_cases hq : q = 0
        · simp [List.filter_cons, hw, hq]
        · simp [List.filter_cons, hw, hq]
    rw [List.filterMap_cons, hstep, ih]
    cases truthyWeight s.weightKg <;> rfl

/-- C7: in the per-exercise aggregation used by both the summary's
`exercise_progress` entries and `exerciseProgress`, `total_sets` counts every
set of the group and `total_reps` sums reps over every set (null as 0),
while the max and the arithmetic mean range over only the sets whose weight
is neither null nor zero — both 0 when no such set exists, and otherwise the
max is attained and bounds every such weight and the mean times the count
equals their sum. -/
theorem c7_per_exercise_stats (group : List ExerciseSetRow) :
    (exerciseAgg group).totalSets = group.length ∧
      (exerciseAgg group).totalReps =
        (group.map (fun s => s.reps.getD 0)).sum ∧
      (specTruthyWeights group = [] →
        (exerciseAgg group).maxWeight = 0 ∧ (exerciseAgg group).avgWeight = 0) ∧
      (specTruthyWeights group ≠ [] →
        (exerciseAgg group).maxWeight ∈ specTruthyWeights group ∧
          (∀ w ∈ specTruthyWeights group,
            w ≤ (exerciseAgg group).maxWeight) ∧
          (exerciseAgg group).avgWeight *
              ((specTruthyWeights group).length : ℚ) =
            (specTruthyWeights group).sum) := by
  have hws := truthyWeights_eq group
  refine ⟨rfl, rfl, ?_, ?_⟩
  · intro hnil
    constructor <;> simp [exerciseAgg, hws, hnil]
  · intro hne
    obtain ⟨w, t, hcons⟩ : ∃ w t, specTruthyWeights group = w :: t := by
      cases hspec : specTruthyWeights group with
      | nil => exact absurd hspec hne
      | cons a b => exact ⟨a, b, rfl⟩
    have hmax : (exerciseAgg group).maxWeight = t.foldl max w := by
      simp [exerciseAgg, hws, hcons]
    have havg : (exerciseAgg group).avgWeight =
        (w :: t).sum / ((w :: t).length : ℚ) := by
      simp [exerciseAgg, hws, hcons]
    obtain ⟨hmem, hub⟩ := foldl_max_spec w t
    refine ⟨?_, ?_, ?_⟩
    · rw [hmax, hcons]
      exact hmem
    · intro x hx
      rw [hmax]
      exact hub x (hcons ▸ hx)
    · rw [havg, hcons]
      have hlen : (((w :: t).length : ℕ) : ℚ) ≠ 0 := by
        have hpos : (0 : ℚ) < (((w :: t).length : ℕ) : ℚ) := by
          exact_mod_cast Nat.succ_pos t.length
        exact ne_of_gt hpos
      exact div_mul_cancel₀ _ hlen

/-- Witness for C7 at a group with a null weight, a zero weight and two real
weights (20 and 30): totals count all four sets, max 30 is attained and the
mean 25 times the count 2 gives the sum 50. -/
theorem c7_per_exercise_stats_witness :
    (exerciseAgg groupSample).totalSets = groupSample.length ∧
      (exerciseAgg groupSample).totalReps =
        (groupSample.map (fun s => s.reps.getD 0)).sum ∧
      specTruthyWeights groupSample ≠ [] ∧
      (exerciseAgg groupSample).maxWeight ∈ specTruthyWeights groupSample ∧
      (exerciseAgg groupSample).avgWeight *
          ((specTruthyWeights groupSample).length : ℚ) =
        (specTruthyWeights groupSample).sum := by
  have hne : specTruthyWeights groupSample ≠ [] := by
    simp [specTruthyWeights, groupSample]
  obtain ⟨h1, h2, -, h4⟩ := c7_per_exercise_stats groupSample
  obtain ⟨ha, -, hc⟩ := h4 hne
  exact ⟨h1, h2, hne, ha, hc⟩

theorem filterByEquipment_sublist (db : Db) (equipment : Option (List String)) :
    (filterByEquipment db equipment).Sublist db.exercises := by
  cases equipment with
  | none => exact List.Sublist.refl _
  | some names =>
    simp only [filterByEquipment]
    by_cases hne : names.isEmpty
    · rw [if_pos hne]
    · rw [if_neg hne]
      exact List.filter_sublist _

theorem mem_groupContrib {sample : List Exercise → Nat → List Exercise}
    {exs : List Exercise} {p : Nat} {m : String} {e : Exercise}
    (hs : SamplerOk sample) (hn : exs.Nodup)
    (he : e ∈ groupContrib sample exs p m) : e ∈ exs ∧ muscleKey e = m := by
  simp only [groupContrib] at he
  by_cases hb : (muscleBucket exs m).isEmpty
  · rw [if_pos hb] at he
    exact absurd he (List.not_mem_nil e)
  · rw [if_neg hb] at he
    have hbn : (muscleBucket exs m).Nodup := hn.filter _
    have hmem := (hs _ _ hbn).2.1 e he
    unfold muscleBucket at hmem
    have hf := List.mem_filter.mp hmem
    exact ⟨hf.1, by simpa using hf.2⟩

theorem groupContrib_nodup {sample : List Exercise → Nat → List Exercise}
    {exs : List Exercise} (p : Nat) (m : String)
    (hs : SamplerOk sample) (hn : exs.Nodup) :
    (groupContrib sample exs p m).Nodup := by
  simp only [groupContrib]
  split
  · exact List.nodup_nil
  · exact (hs _ _ (hn.filter _)).1

theorem selectMajor_spec (sample : List Exercise → Nat → List Exercise)
    (exs : List Exercise) (p : Nat)
    (hs : SamplerOk sample) (hn : exs.Nodup) :
    (selectMajor sample exs p).Nodup ∧
      ∀ e ∈ selectMajor sample exs p, e ∈ exs := by
  constructor
  · unfold selectMajor
    rw [List.nodup_flatten]
    constructor
    · intro l hl
      rcases List.mem_map.mp hl with ⟨m, -, rfl⟩
      exact groupContrib_nodup p m hs hn
    · rw [List.pairwise_map]
      have hmg : List.Pairwise (fun a b => a ≠ b) majorGroups := by decide
      refine List.Pairwise.imp ?_ hmg
      intro a b hab e hea heb
      exact hab (((mem_groupContrib hs hn hea).2.symm).trans
        (mem_groupContrib hs hn heb).2)
  · intro e he
    unfold selectMajor at he
    rcases List.mem_flatten.mp he with ⟨l, hl, hel⟩
    rcases List.mem_map.mp hl with ⟨m, -, rfl⟩
    exact (mem_groupContrib hs hn hel).1

theorem prescription_pos (g : String) :
    0 < (prescription g).sets ∧ 0 < (prescription g).reps ∧
      0 < (prescription g).rest := by
  unfold prescription
  split_ifs <;> exact ⟨by norm_num, by norm_num, by norm_num⟩

theorem topUpSelection_spec (sample : List Exercise → Nat → List Exercise)
    (hs : SamplerOk sample) {exs majorSel : List Exercise}
    (hn : exs.Nodup) (hne : exs ≠ [])
    (hmsn : majorSel.Nodup) (hmsm : ∀ e ∈ majorSel, e ∈ exs)
    {target : Int} (htarget : 5 ≤ target) :
    topUpSelection sample exs majorSel target ≠ [] ∧
      (topUpSelection sample exs majorSel target).Nodup ∧
      ∀ e ∈ topUpSelection sample exs majorSel target, e ∈ exs := by
  unfold topUpSelection
  by_cases hlt : (majorSel.length : Int) < target
  · rw [if_pos hlt]
    set remaining := exs.filter (fun e => ¬ majorSel.contains e) with hrem
    by_cases hremE : remaining.isEmpty
    · rw [if_pos hremE]
      have hms_ne : majorSel ≠ [] := by
        intro hnil
        subst hnil
        have hre : remaining = exs := by
          rw [hrem]
          apply List.filter_eq_self.mpr
          intro a _
          simp
        rw [hre] at hremE
        cases hx : exs with
        | nil => exact hne hx
        | cons x xs => rw [hx] at hremE; simp at hremE
      exact ⟨hms_ne, hmsn, hmsm⟩
    · rw [if_neg hremE]
      have hremnodup : remaining.Nodup := hn.filter _
      obtain ⟨hsn, hsmem, hslen⟩ :=
        hs remaining (min (target - (majorSel.length : Int)).toNat
          remaining.length) hremnodup
      have hdisj : ∀ e ∈ sample remaining
          (min (target - (majorSel.length : Int)).toNat remaining.length),
          e ∉ majorSel := by
        intro e he hmem
        have hin := hsmem e he
        rw [hrem] at hin
        have hnc := (List.mem_filter.mp hin).2
        simp at hnc
        exact hnc hmem
      refine ⟨?_, ?_, ?_⟩
      · intro hnil
        have hlen0 := congrArg List.length hnil
        rw [List.length_append, hslen] at hlen0
        simp only [List.length_nil, Nat.add_eq_zero] at hlen0
        obtain ⟨hms0, hmin0⟩ := hlen0
        have hrlen : 0 < remaining.length := by
          cases hr : remaining with
          | nil =>
            exfalso
            apply hremE
            rw [hr]
            rfl
          | cons a l => simp
        have htn : 0 < (target - (majorSel.length : Int)).toNat := by
          rw [hms0]
          omega
        omega
      · exact List.Nodup.append hmsn hsn (fun a ha hb => hdisj a hb ha)
      · intro e he
        rcases List.mem_append.mp he with h | h
        · exact hmsm e h
        · have hin := hsmem e h
          rw [hrem] at hin
          exact (List.mem_filter.mp hin).1
  · rw [if_neg hlt]
    have hms_ne : majorSel ≠ [] := by
      intro hnil
      rw [hnil] at hlt
      simp at hlt
      omega
    exact ⟨hms_ne, hmsn, hmsm⟩

/-- C4: for every sampler obeying the `random.sample` contract and every
store whose catalog ids are distinct (the primary key), a successful
`generate` returns a non-empty exercise list with pairwise-distinct exercise
ids (per-muscle draws come from disjoint buckets, the top-up draw from the
non-selected remainder) and a non-negative estimated duration. -/
theorem c4_generate_valid (sample : List Exercise → Nat → List Exercise)
    (db : Db) (req : WorkoutGenerateRequest)
    (resp : WorkoutGenerateResponse) (db' : Db)
    (hs : SamplerOk sample)
    (hnodup : (db.exercises.map (fun e => e.id)).Nodup)
    (h : generate_workout sample db req = .ok (resp, db')) :
    resp.exercises ≠ [] ∧
      (resp.exercises.map (fun d => d.exerciseId)).Nodup ∧
      0 ≤ resp.estimatedDuration := by
  have hsubl := filterByEquipment_sublist db req.equipment
  have hexsnodup : (filterByEquipment db req.equipment).Nodup :=
    (List.Nodup.of_map _ hnodup).sublist hsubl
  have hinj : ∀ a ∈ db.exercises, ∀ b ∈ db.exercises, a.id = b.id → a = b :=
    fun a ha b hb hab => List.inj_on_of_nodup_map hnodup ha hb hab
  simp only [generate_workout] at h
  split at h
  · simp at h
  · split at h
    · simp at h
    · split at h
      · simp at h
      · rename_i hcat
        split at h
        · simp at h
        · simp only [Except.ok.injEq, Prod.mk.injEq] at h
          obtain ⟨h1, -⟩ := h
          subst h1
          dsimp only
          have hexs_ne : filterByEquipment db req.equipment ≠ [] := by
            intro hnil
            rw [hnil] at hcat
            exact hcat rfl
          obtain ⟨hmsn, hmsm⟩ := selectMajor_spec sample
            (filterByEquipment db req.equipment)
            (if numMuscleGroups (filterByEquipment db req.equipment) > 5
              then 1 else 2) hs hexsnodup
          obtain ⟨hselne, hseln, hselm⟩ := topUpSelection_spec sample hs
            hexsnodup hexs_ne hmsn hmsm (le_max_left 5 _)
          refine ⟨?_, ?_, ?_⟩
          · intro hnil
            exact hselne (List.map_eq_nil_iff.mp hnil)
          · rw [List.map_map]
            exact hseln.map_on (fun x hx y hy hxy =>
              hinj x (hsubl.subset (hselm x hx)) y
                (hsubl.subset (hselm y hy)) hxy)
          · obtain ⟨hps, hpr, hprest⟩ := prescription_pos (pyLower req.goal)
            apply Int.fdiv_nonneg
            · apply mul_nonneg
              · exact mul_nonneg (Int.natCast_nonneg _) hps.le
              · have h3 : (0 : Int) ≤ (prescription (pyLower req.goal)).reps * 3 :=
                  mul_nonneg hpr.le (by norm_num)
                exact add_nonneg h3 hprest.le
            · norm_num

/-- Witness for C4 at the two-exercise store with the take-first sampler:
the returned list [1, 2] is non-empty, duplicate-free and est 32 ≥ 0. -/
theorem c4_generate_valid_witness :
    SamplerOk sampleTake ∧
      (dbGen.exercises.map (fun e => e.id)).Nodup ∧
      generate_workout sampleTake dbGen reqGen = .ok (genRespFixture, dbGenAfter) ∧
      genRespFixture.exercises ≠ [] ∧
      (genRespFixture.exercises.map (fun d => d.exerciseId)).Nodup ∧
      0 ≤ genRespFixture.estimatedDuration := by
  have h := c4_generate_valid sampleTake dbGen reqGen genRespFixture dbGenAfter
    sampleTake_ok (by decide) rfl
  exact ⟨sampleTake_ok, by decide, rfl, h.1, h.2.1, h.2.2⟩

end FitPlan
